import Mathlib

/-!
Verification of the fact-checking pipeline backend
(`backend/scraper.py`, `backend/claims.py`, `backend/main.py`).

The Python source is shallowly embedded: pure string manipulation is
translated function-by-function; effectful collaborators (the network,
yt-dlp, the Playwright browser, the LLM) are oracles supplied through an
environment record; a Python exception propagating to the caller is the
`Except.error` case of each modelled function, while exceptions the source
catches are handled inside the corresponding definition, exactly at the
`try`/`except` sites of the source.
-/

namespace FactCheck

/-- Model of a parsed JSON value (the result of Python `json.loads` or
`response.json()`).  Numbers are restricted to integers: no claim in this
development involves fractional numerals. -/
inductive Json where
  | null : Json
  | bool : Bool → Json
  | num : Int → Json
  | str : String → Json
  | arr : List Json → Json
  | obj : List (String × Json) → Json
deriving Inhabited

/-- Python exceptions that the modelled code can raise to its caller or
catch internally.  `exception m` stands for an arbitrary `Exception`
carrying message `m` (used for browser-launch failures, whose concrete
class is unspecified). -/
inductive PyExn where
  | keyError : PyExn
  | indexError : PyExn
  | typeError : PyExn
  | attributeError : PyExn
  | valueError : String → PyExn
  | exception : String → PyExn
deriving Repr, DecidableEq, Inhabited

/-! ## Python string primitives (over `List Char`) -/

/-- Python whitespace for `str.strip()` (ASCII subset; the inputs of this
development contain no other whitespace). -/
def pyWs (c : Char) : Bool :=
  c = ' ' || c = '\t' || c = '\n' || c = '\r' || c = '\x0b' || c = '\x0c'

/-- `str.strip()`: remove trailing whitespace (via reversal) then leading
whitespace. -/
def pyStripL (l : List Char) : List Char :=
  (((l.reverse.dropWhile pyWs).reverse).dropWhile pyWs)

/-- `str.strip()` on `String`. -/
def py_strip (s : String) : String := ⟨pyStripL s.data⟩

/-- `str.lower()` (ASCII; the hosts and schemes compared against are
ASCII). -/
def py_lower (s : String) : String := ⟨s.data.map Char.toLower⟩

/-- Split a list at the first occurrence of `sep` (nonempty): returns the
part before and the part after, or `none` when `sep` does not occur. -/
def split_at_first (sep : List Char) : List Char → Option (List Char × List Char)
  | [] => none
  | c :: rest =>
    if sep.isPrefixOf (c :: rest) then some ([], (c :: rest).drop sep.length)
    else match split_at_first sep rest with
      | some (pre, post) => some (c :: pre, post)
      | none => none

/-- Split a list at the last occurrence of `sep`: implemented as the first
occurrence of the reversed separator in the reversed list (for equal-length
matches the rightmost end is the rightmost start). -/
def split_at_last (sep : List Char) (l : List Char) : Option (List Char × List Char) :=
  match split_at_first sep.reverse l.reverse with
  | some (a, b) => some (b.reverse, a.reverse)
  | none => none

/-- Substring test, Python `pat in s` on lists. -/
def isInfixL (pat : List Char) : List Char → Bool
  | [] => pat.isEmpty
  | c :: rest => pat.isPrefixOf (c :: rest) || isInfixL pat rest

/-- Substring test on `String`, Python `pat in s`. -/
def py_in (pat s : String) : Bool := isInfixL pat.data s.data

/-- `str.startswith` on `String`. -/
def py_startswith (s pre : String) : Bool := pre.data.isPrefixOf s.data

/-- Python `str.replace("www.", "")`: remove every (non-overlapping,
left-to-right) occurrence of `"www."`. -/
def replaceWWWL : List Char → List Char
  | 'w' :: 'w' :: 'w' :: '.' :: rest => replaceWWWL rest
  | c :: rest => c :: replaceWWWL rest
  | [] => []

/-- `netloc.replace("www.", "")` on `String`. -/
def strip_www (s : String) : String := ⟨replaceWWWL s.data⟩

/-- Python `str.replace("&amp;", "&")`. -/
def replaceAmpL : List Char → List Char
  | '&' :: 'a' :: 'm' :: 'p' :: ';' :: rest => '&' :: replaceAmpL rest
  | c :: rest => c :: replaceAmpL rest
  | [] => []

/-- `url.replace("&amp;", "&")` on `String`. -/
def py_replace_amp (s : String) : String := ⟨replaceAmpL s.data⟩

/-- Python slice `s[:n]` on strings. -/
def py_take (n : Nat) (s : String) : String := ⟨s.data.take n⟩

/-- `url.split("?")[0]`: the part before the first `'?'` (the whole string
when there is none). -/
def py_before_query (s : String) : String := ⟨s.data.takeWhile (fun c => c ≠ '?')⟩

/-- `str.rstrip("/")`: drop trailing slashes. -/
def py_rstrip_slash (s : String) : String := ⟨(s.data.reverse.dropWhile (fun c => c = '/')).reverse⟩

/-- `author.split("\n")[0]`: the first line (always defined, as in Python:
`split` yields at least one element). -/
def py_first_line (s : String) : String := ⟨s.data.takeWhile (fun c => c ≠ '\n')⟩

/-- Python `str.title()` restricted to its use on the single lowercase
words `"twitter"`, `"instagram"`, `"facebook"`: uppercase a letter that
follows a non-letter, lowercase the rest. -/
def pyTitleL : Bool → List Char → List Char
  | _, [] => []
  | prevAlpha, c :: rest =>
    if c.isAlpha then
      (if prevAlpha then c.toLower else c.toUpper) :: pyTitleL true rest
    else c :: pyTitleL false rest

/-- `platform.title()` on `String`. -/
def py_title (s : String) : String := ⟨pyTitleL false s.data⟩

/-- `" ".join(xs)`. -/
def py_join_space : List String → String
  | [] => ""
  | [x] => x
  | x :: y :: rest => x ++ " " ++ py_join_space (y :: rest)

/-! ## Model of `json.loads`

A fuel-indexed recursive-descent parser for the JSON grammar
(objects, arrays, strings with the standard escapes, integer numerals,
`true`/`false`/`null`).  Restrictions relative to CPython's `json.loads`,
none of which is exercised by any claim: fractional/exponent numerals and
`NaN`/`Infinity` are rejected, and `\u` escapes do not pair surrogates. -/

/-- JSON inter-token whitespace (exactly the four characters CPython
skips). -/
def jsonWs (c : Char) : Bool := c = ' ' || c = '\t' || c = '\n' || c = '\r'

/-- Skip JSON whitespace. -/
def skipWs (l : List Char) : List Char := l.dropWhile jsonWs

/-- Hex digit value. -/
def hexVal (c : Char) : Option Nat :=
  if '0' ≤ c ∧ c ≤ '9' then some (c.toNat - '0'.toNat)
  else if 'a' ≤ c ∧ c ≤ 'f' then some (c.toNat - 'a'.toNat + 10)
  else if 'A' ≤ c ∧ c ≤ 'F' then some (c.toNat - 'A'.toNat + 10)
  else none

/-- Parse the body of a JSON string literal (after the opening quote),
accumulating characters; strict mode: unescaped control characters are
rejected, as in CPython. -/
def parseStrBody (acc : List Char) : List Char → Option (String × List Char)
  | [] => none
  | '"' :: rest => some (String.mk acc.reverse, rest)
  | '\\' :: 'u' :: h1 :: h2 :: h3 :: h4 :: rest =>
    (match hexVal h1, hexVal h2, hexVal h3, hexVal h4 with
     | some a, some b, some c, some d =>
       parseStrBody (Char.ofNat (((a * 16 + b) * 16 + c) * 16 + d) :: acc) rest
     | _, _, _, _ => none)
  | '\\' :: e :: rest =>
    (match e with
     | '"' => parseStrBody ('"' :: acc) rest
     | '\\' => parseStrBody ('\\' :: acc) rest
     | '/' => parseStrBody ('/' :: acc) rest
     | 'n' => parseStrBody ('\n' :: acc) rest
     | 't' => parseStrBody ('\t' :: acc) rest
     | 'r' => parseStrBody ('\r' :: acc) rest
     | 'b' => parseStrBody ('\x08' :: acc) rest
     | 'f' => parseStrBody ('\x0c' :: acc) rest
     | _ => none)
  | c :: rest => if c.toNat < 32 then none else parseStrBody (c :: acc) rest

/-- Digits of an unsigned decimal numeral. -/
def parseDigits (acc : Nat) : List Char → Nat × List Char
  | c :: rest => if c.isDigit then parseDigits (acc * 10 + (c.toNat - '0'.toNat)) rest else (acc, c :: rest)
  | [] => (acc, [])

/-- Parse a JSON integer numeral; rejects a following `.`/`e`/`E`
(fractional numerals are outside this model). -/
def parseNum (l : List Char) : Option (Json × List Char) :=
  let signed : Bool := l.headD ' ' = '-'
  let l1 := if signed then l.drop 1 else l
  match l1 with
  | c :: _ =>
    if c.isDigit then
      let (n, rest) := parseDigits 0 l1
      match rest with
      | d :: _ => if d = '.' || d = 'e' || d = 'E' then none
                  else some (Json.num (if signed then -(n : Int) else (n : Int)), rest)
      | [] => some (Json.num (if signed then -(n : Int) else (n : Int)), [])
    else none
  | [] => none

/-- Modes of the single fuel-indexed parsing function: a value, the
remaining elements of an array, or the remaining members of an object. -/
inductive PMode where
  | val : PMode
  | elems : List Json → PMode
  | fields : List (String × Json) → PMode

/-- Insert a member into an object, replacing an existing key in place
(CPython dicts keep the first position and the last value). -/
def upsert (k : String) (v : Json) : List (String × Json) → List (String × Json)
  | [] => [(k, v)]
  | (k', v') :: rest => if k' = k then (k, v) :: rest else (k', v') :: upsert k v rest

/-- The recursive-descent core of the `json.loads` model, structurally
recursive on fuel. -/
def parseJ : Nat → PMode → List Char → Option (Json × List Char)
  | 0, _, _ => none
  | Nat.succ fuel, PMode.val, cs =>
    (match skipWs cs with
     | '\x7b' :: rest =>
       (match skipWs rest with
        | '\x7d' :: rest2 => some (Json.obj [], rest2)
        | _ => parseJ fuel (PMode.fields []) rest)
     | '[' :: rest =>
       (match skipWs rest with
        | ']' :: rest2 => some (Json.arr [], rest2)
        | _ => parseJ fuel (PMode.elems []) rest)
     | '"' :: rest => (parseStrBody [] rest).map (fun p => (Json.str p.1, p.2))
     | 't' :: 'r' :: 'u' :: 'e' :: rest => some (Json.bool true, rest)
     | 'f' :: 'a' :: 'l' :: 's' :: 'e' :: rest => some (Json.bool false, rest)
     | 'n' :: 'u' :: 'l' :: 'l' :: rest => some (Json.null, rest)
     | other => parseNum other)
  | Nat.succ fuel, PMode.elems acc, cs =>
    (match parseJ fuel PMode.val cs with
     | none => none
     | some (v, rest) =>
       (match skipWs rest with
        | ',' :: rest2 => parseJ fuel (PMode.elems (acc ++ [v])) rest2
        | ']' :: rest2 => some (Json.arr (acc ++ [v]), rest2)
        | _ => none))
  | Nat.succ fuel, PMode.fields acc, cs =>
    (match skipWs cs with
     | '"' :: rest =>
       (match parseStrBody [] rest with
        | none => none
        | some (k, rest1) =>
          (match skipWs rest1 with
           | ':' :: rest2 =>
             (match parseJ fuel PMode.val rest2 with
              | none => none
              | some (v, rest3) =>
                (match skipWs rest3 with
                 | ',' :: rest4 => parseJ fuel (PMode.fields (upsert k v acc)) rest4
                 | '\x7d' :: rest4 => some (Json.obj (upsert k v acc), rest4)
                 | _ => none))
           | _ => none))
     | _ => none)

/-- Model of `json.loads`: `some` is a parsed value, `none` is a
`json.JSONDecodeError`.  The fuel `2·|s| + 8` dominates the recursion
depth: every two fuel units consume at least one input character. -/
def json_loads (s : String) : Option Json :=
  match parseJ (2 * s.length + 8) PMode.val s.data with
  | some (v, rest) => if skipWs rest = [] then some v else none
  | none => none

/-- Python `str(x)` as used on JSON-derived values (`str(created_utc)`);
the container renderings are schematic placeholders, never inspected by
any claim. -/
def py_str_of : Json → String
  | Json.str s => s
  | Json.num n => toString n
  | Json.bool true => "True"
  | Json.bool false => "False"
  | Json.null => "None"
  | Json.arr _ => "[...]"
  | Json.obj _ => "\x7b...\x7d"

/-- Python truthiness of a JSON-derived value. -/
def py_truthy : Json → Bool
  | Json.null => false
  | Json.bool b => b
  | Json.num n => n != 0
  | Json.str s => s != ""
  | Json.arr l => !l.isEmpty
  | Json.obj l => !l.isEmpty

/-! ## Python operations on JSON-derived objects, with their exceptions -/

/-- Key lookup in an object, last occurrence winning (objects built by the
parser have unique keys; for arbitrary oracle-supplied objects this mirrors
`json.loads`, where a later duplicate overwrites). -/
def objFind (kvs : List (String × Json)) (k : String) : Option Json :=
  match kvs with
  | [] => none
  | (k', v) :: rest => match objFind rest k with
    | some v' => some v'
    | none => if k' = k then some v else none

/-- Python `x[i]` with an `int` index: lists index (negative indices never
arise here), strings yield one-character strings, dicts raise `KeyError`
(their keys are strings), everything else raises `TypeError`. -/
def py_sub_int (j : Json) (i : Nat) : Except PyExn Json :=
  match j with
  | Json.arr xs => match xs.get? i with
    | some v => Except.ok v
    | none => Except.error PyExn.indexError
  | Json.str s => match s.data.get? i with
    | some c => Except.ok (Json.str (String.mk [c]))
    | none => Except.error PyExn.indexError
  | Json.obj _ => Except.error PyExn.keyError
  | _ => Except.error PyExn.typeError

/-- Python `x[k]` with a `str` key: dicts look up (missing key raises
`KeyError`), lists and strings raise `TypeError` (indices must be
integers), everything else raises `TypeError` (not subscriptable). -/
def py_sub_str (j : Json) (k : String) : Except PyExn Json :=
  match j with
  | Json.obj kvs => match objFind kvs k with
    | some v => Except.ok v
    | none => Except.error PyExn.keyError
  | _ => Except.error PyExn.typeError

/-- Python `x.get(k, default)`: only dicts have `.get`; on any other value
the attribute access raises `AttributeError`. -/
def py_get (j : Json) (k : String) (default : Json) : Except PyExn Json :=
  match j with
  | Json.obj kvs => Except.ok ((objFind kvs k).getD default)
  | _ => Except.error PyExn.attributeError

/-- Python `x[:2]` as used on the preview image list: lists are truncated,
strings slice to a string (whose iteration yields one-character strings),
other values raise `TypeError`. -/
def py_slice2 (j : Json) : Except PyExn (List Json) :=
  match j with
  | Json.arr xs => Except.ok (xs.take 2)
  | Json.str s => Except.ok ((s.data.take 2).map (fun c => Json.str (String.mk [c])))
  | _ => Except.error PyExn.typeError

/-- Python `x[k] = v` on a JSON-derived value: dicts update in place or
append, anything else raises `TypeError`. -/
def py_setitem (j : Json) (k : String) (v : Json) : Except PyExn Json :=
  match j with
  | Json.obj kvs => Except.ok (Json.obj (upsert k v kvs))
  | _ => Except.error PyExn.typeError

/-! ## Data model: `ScrapeResult` (the normalized dict every retriever
returns, scraper.py) -/

/-- The standardized dict of `scraper.py`: keys `platform`, `text`,
`author`, `image_urls`, `video_urls`, `timestamp`, `error`. -/
structure ScrapeResult where
  platform : String
  text : String
  author : String
  image_urls : List String
  video_urls : List String
  timestamp : String
  error : Option String
deriving Repr, DecidableEq, Inhabited

/-- `_error_result` (scraper.py lines 397-407): the standardized error
response. -/
def _error_result (platform message : String) : ScrapeResult :=
  { platform := platform
    text := ""
    author := ""
    image_urls := []
    video_urls := []
    timestamp := ""
    error := some message }

/-! ## Platform detection (scraper.py lines 37-55)

`detect_platform` calls `urllib.parse.urlparse(url.lower()).netloc`.
The `urlparse` model below follows CPython 3.11's `urlsplit`: tab/CR/LF
characters are removed, an RFC-3986 scheme prefix is stripped, and when
the remainder starts with `//` the netloc runs up to the first of
`/?#`.  A netloc with an unmatched `[` or `]` raises
`ValueError("Invalid IPv6 URL")`; a netloc with a matched pair runs
`_check_bracketed_host` on the text between the first `[` and the next
`]`, which raises `ValueError` unless that text is a valid IPvFuture
literal (`v` + hex digits + `.` + a nonempty tail) or a valid IPv6
address (per the `ipaddress` module's grammar, including an embedded
IPv4 suffix and a `%scope` id) — a valid IPv4 address in brackets also
raises.  `Except.error` is the raised `ValueError` message (the
"does not appear to be" message embeds the host with plain quotes where
CPython uses `repr`).  One CPython check is out of the model's scope and
documented where C5 relies on it: `_checknetloc`'s NFKC comparison,
which returns immediately — never raising — whenever the netloc is pure
ASCII. -/

/-- CPython `str.split(sep)` with a one-character separator, keeping
empty fields. -/
def py_split_char (sep : Char) : List Char → List (List Char)
  | [] => [[]]
  | c :: rest =>
    if c = sep then [] :: py_split_char sep rest
    else match py_split_char sep rest with
      | f :: more => (c :: f) :: more
      | [] => [[c]]

/-- A hexadecimal digit (`ipaddress._HEX_DIGITS`). -/
def is_hex_digit (c : Char) : Bool :=
  c.isDigit || ('a' ≤ c && c ≤ 'f') || ('A' ≤ c && c ≤ 'F')

/-- Decimal value of a digit string (guarded by a digits check before
use). -/
def octet_val (cs : List Char) : Nat :=
  cs.foldl (fun a c => a * 10 + (c.toNat - 48)) 0

/-- `ipaddress.IPv4Address._parse_octet`: nonempty, at most three
characters, decimal digits only, no leading zero, value at most 255. -/
def valid_octet (cs : List Char) : Bool :=
  !cs.isEmpty && decide (cs.length ≤ 3) && cs.all Char.isDigit &&
    (match cs with
     | '0' :: _ :: _ => false
     | _ => true) &&
    decide (octet_val cs ≤ 255)

/-- `ipaddress.IPv4Address`: exactly four valid octets. -/
def is_ipv4 (cs : List Char) : Bool :=
  let octs := py_split_char '.' cs
  octs.length == 4 && octs.all valid_octet

/-- `ipaddress.IPv6Address._parse_hextet`: one to four hex digits. -/
def valid_hextet (cs : List Char) : Bool :=
  !cs.isEmpty && decide (cs.length ≤ 4) && cs.all is_hex_digit

/-- The part-level rules of `ipaddress.IPv6Address._ip_int_from_string`
(after the optional IPv4 suffix is replaced by two hextets): at most
nine parts; at most one empty middle part (the `::`); an empty first or
last part only next to the `::`; eight parts exactly when there is no
`::`, fewer than eight skipped-adjusted parts otherwise; every counted
part a valid hextet. -/
def ipv6_parts_ok (parts : List (List Char)) : Bool :=
  let n := parts.length
  if n > 9 then false
  else
    match (List.range n).filter
        (fun i => decide (0 < i) && decide (i < n - 1) && (parts.getD i ['x']).isEmpty) with
    | [] => n == 8 && parts.all valid_hextet
    | [skip] =>
      let hi0 := skip
      let lo0 := n - skip - 1
      let firstEmpty := (parts.headD ['x']).isEmpty
      let lastEmpty := (parts.getLastD ['x']).isEmpty
      if firstEmpty && hi0 != 1 then false
      else if lastEmpty && lo0 != 1 then false
      else
        let hi := if firstEmpty then hi0 - 1 else hi0
        let lo := if lastEmpty then lo0 - 1 else lo0
        if decide (8 ≤ hi + lo) then false
        else (parts.take hi).all valid_hextet && (parts.drop (n - lo)).all valid_hextet
    | _ => false

/-- `ipaddress.IPv6Address` without a scope id: at least three
colon-separated parts, a dotted last part must be a valid IPv4 suffix
(then counted as two hextets), and the parts must satisfy
`ipv6_parts_ok`. -/
def is_ipv6_addr (cs : List Char) : Bool :=
  let parts0 := py_split_char ':' cs
  if parts0.length < 3 then false
  else
    match parts0.getLast? with
    | none => false
    | some lastP =>
      if lastP.contains '.' then
        if is_ipv4 lastP then ipv6_parts_ok (parts0.dropLast ++ [['0'], ['0']])
        else false
      else ipv6_parts_ok parts0

/-- `ipaddress.IPv6Address._split_scope_id` plus the address check: an
optional `%scope` suffix whose scope part is nonempty and contains no
further `%`. -/
def is_ipv6 (cs : List Char) : Bool :=
  match split_at_first ['%'] cs with
  | none => is_ipv6_addr cs
  | some (addr, scope) => !scope.isEmpty && !scope.contains '%' && is_ipv6_addr addr

/-- `netloc.partition('[')[2].partition(']')[0]`: the text between the
first `[` and the following `]`. -/
def bracketed_host_of (nl : List Char) : List Char :=
  match split_at_first ['['] nl with
  | some (_, after) => after.takeWhile (fun c => c ≠ ']')
  | none => []

/-- The `\..+\Z` tail of the IPvFuture regex, checked after the hex run:
a literal dot, then a nonempty remainder that `.+` can match (no
newline). -/
def ipvfuture_tail_ok (rest : List Char) : Bool :=
  match rest.dropWhile is_hex_digit with
  | '.' :: tail => !tail.isEmpty && tail.all (fun c => c != '\n')
  | _ => false

/-- CPython 3.11 `urllib.parse._check_bracketed_host`: a host starting
with `v` must be an IPvFuture literal (`\Av[a-fA-F0-9]+\..+\Z`, whose
`.+` cannot cross a newline); otherwise it must parse under
`ipaddress.ip_address`, and an IPv4 result is itself rejected. -/
def _check_bracketed_host (cs : List Char) : Except String Unit :=
  match cs with
  | 'v' :: rest =>
    if !(rest.takeWhile is_hex_digit).isEmpty && ipvfuture_tail_ok rest then
      Except.ok ()
    else Except.error "IPvFuture address is invalid"
  | _ =>
    if is_ipv4 cs then Except.error "An IPv4 address cannot be in brackets"
    else if is_ipv6 cs then Except.ok ()
    else Except.error ("'" ++ String.mk cs ++ "' does not appear to be an IPv4 or IPv6 address")

/-- Characters CPython removes from a URL before splitting
(`_UNSAFE_URL_BYTES_TO_REMOVE`). -/
def py_url_cleaned (l : List Char) : List Char :=
  l.filter (fun c => !(c = '\t' || c = '\r' || c = '\n'))

/-- A character allowed after the first one in a URL scheme. -/
def scheme_char (c : Char) : Bool := c.isAlpha || c.isDigit || c = '+' || c = '-' || c = '.'

/-- Strip a leading `scheme:` when the part before the first `:` is a
nonempty letter-led run of scheme characters, as `urlsplit` does. -/
def strip_scheme (l : List Char) : List Char :=
  match split_at_first [':'] l with
  | some (before, after) =>
    (match before with
     | [] => l
     | c :: cs => if c.isAlpha && cs.all scheme_char then after else l)
  | none => l

/-- The netloc region: from after `//` up to the first of `/?#`. -/
def netloc_part (rest : List Char) : List Char :=
  rest.takeWhile (fun c => !(c = '/' || c = '?' || c = '#'))

/-- The netloc `urlsplit` extracts from the cleaned, scheme-stripped
URL: empty when the remainder does not start with `//`. -/
def netloc_region (s : String) : List Char :=
  match strip_scheme (py_url_cleaned s.data) with
  | '/' :: '/' :: rest => netloc_part rest
  | _ => []

/-- The `netloc` attribute of `urlparse(s)`, or the raised `ValueError`
message: the unmatched-bracket check, then (for a matched pair)
`_check_bracketed_host`.  When the URL has no `//`, `netloc_region` is
empty and both bracket checks pass vacuously, exactly as CPython skips
them for its empty netloc. -/
def urlparse_netloc (s : String) : Except String String :=
  if ((netloc_region s).contains '[' && !(netloc_region s).contains ']') ||
      ((netloc_region s).contains ']' && !(netloc_region s).contains '[') then
    Except.error "Invalid IPv6 URL"
  else if (netloc_region s).contains '[' && (netloc_region s).contains ']' then
    match _check_bracketed_host (bracketed_host_of (netloc_region s)) with
    | Except.error m => Except.error m
    | Except.ok _ => Except.ok (String.mk (netloc_region s))
  else Except.ok (String.mk (netloc_region s))

/-- The host-table match of `detect_platform` (scraper.py lines 44-55),
applied to the normalized host. -/
def detect_from_host (host : String) : String :=
  if host = "twitter.com" ∨ host = "x.com" ∨ host = "mobile.twitter.com" then "twitter"
  else if py_in "reddit.com" host then "reddit"
  else if host = "youtube.com" ∨ host = "youtu.be" ∨ host = "m.youtube.com" then "youtube"
  else if py_in "instagram.com" host then "instagram"
  else if py_in "facebook.com" host ∨ host = "fb.com" then "facebook"
  else "unknown"

/-- `detect_platform` (scraper.py lines 37-55):
`host = urlparse(url.lower()).netloc.replace("www.", "")`, then the fixed
table.  `Except.error` is a `ValueError` escaping from `urlparse`. -/
def detect_platform (url : String) : Except String String :=
  (urlparse_netloc (py_lower url)).map (fun netloc => detect_from_host (strip_www netloc))

/-! ## Collaborator oracles

Each effectful collaborator of `scraper.py` is an oracle recorded in an
environment; the retrievers are deterministic functions of the oracle
answers.  `Except PyExn` is the retriever's outcome as seen by its Python
caller: `ok` is a returned dict, `error` is an exception propagating out. -/

/-- Outcome of `requests.get(clean_url, ...)` followed by
`raise_for_status()`: a raised `requests.RequestException` (carrying its
message), or a response whose `.json()` is `body` (`none` when the body is
not valid JSON, which raises a `json.JSONDecodeError`). -/
inductive HttpOutcome where
  | exn : String → HttpOutcome
  | body : Option Json → HttpOutcome

/-- Metadata returned by `yt_dlp`'s `extract_info`, per its documented
contract (an info dict; the fields scraper.py reads). -/
structure YtInfo where
  title : String := ""
  description : Option String := none
  uploader : String := ""
  id : String := ""
  thumbnail : String := ""
  upload_date : String := ""

/-- Oracles of the metadata/transcript retriever: whether `yt_dlp`
imports, the outcome of `extract_info` (exception message or info dict),
and the transcript segments keyed by video id (`none` when
`get_transcript` raises; the segment texts otherwise). -/
structure YtEnv where
  installed : Bool := true
  extract_info : String → Except String YtInfo := fun _ => Except.ok {}
  transcript : String → Option (List String) := fun _ => none

/-- State of the loaded Twitter/X page as `_extract_twitter` observes it
(after the modal-dismissal clicks, which produce no data): whether the
tweet `article` selector appeared within its timeout, the optional text
and author elements, the `src` attribute of each `tweetPhoto img`, and
whether a `videoComponent` element exists. -/
structure TwitterPage where
  tweet_found : Bool := true
  tweet_text : Option String := none
  author : Option String := none
  img_srcs : List (Option String) := []
  has_video : Bool := false

/-- Open-Graph meta tags of a loaded Instagram/Facebook page: outer
`Option` is element presence, inner `Option` the `content` attribute. -/
structure OgPage where
  og_title : Option (Option String) := none
  og_desc : Option (Option String) := none
  og_image : Option (Option String) := none
  og_type : Option (Option String) := none

/-- Oracles of the session-backed browser retriever.  `launch` is the
outcome of `launch_persistent_context` (plus page acquisition), which the
source does not guard; `goto1` the first `page.goto`; `url_after_settle`
the `page.url` inspected by the login check; `login_flow_ok` whether the
90-second login wait (and the re-navigation inside the same `try`)
succeeds; `extract_exn` an exception raised inside the platform extractor
(caught at scraper.py line 283). -/
structure BrowserEnv where
  launch : Except String Unit := Except.ok ()
  goto1 : Except String Unit := Except.ok ()
  url_after_settle : String := ""
  login_flow_ok : Bool := true
  extract_exn : Option String := none
  twitter : TwitterPage := {}
  insta : OgPage := {}
  fb : OgPage := {}

/-- The full environment: the module-level flags of scraper.py
(`IS_SERVER`, whether `playwright` imports), the collaborator oracles, and
the LLM reply function of claims.py (user message ↦ reply text). -/
structure Env where
  is_server : Bool := false
  playwright_installed : Bool := true
  reddit_get : String → HttpOutcome := fun _ => HttpOutcome.exn "offline"
  yt : YtEnv := {}
  browser : BrowserEnv := {}
  llm : String → String := fun _ => ""

/-! ## Fixed-API retriever: `scrape_reddit` (scraper.py lines 90-144) -/

/-- `clean_url = url.split("?")[0].rstrip("/") + ".json"` (line 96). -/
def clean_reddit_url (url : String) : String :=
  py_rstrip_slash (py_before_query url) ++ ".json"

/-- `data[0]["data"]["children"][0]["data"]` (line 108). -/
def reddit_nav (data : Json) : Except PyExn Json :=
  match py_sub_int data 0 with
  | Except.error e => Except.error e
  | Except.ok a =>
    match py_sub_str a "data" with
    | Except.error e => Except.error e
    | Except.ok b =>
      match py_sub_str b "children" with
      | Except.error e => Except.error e
      | Except.ok c =>
        match py_sub_int c 0 with
        | Except.error e => Except.error e
        | Except.ok d => py_sub_str d "data"

/-- `re.search(r"\.(jpg|jpeg|png|gif|webp)(\?|$)", post_url, re.IGNORECASE)`
at one position: the suffix starts with `.ext` followed by `?` or the end. -/
def image_ext_at (cs : List Char) : Bool :=
  match cs with
  | '.' :: rest =>
    let rest := rest.map Char.toLower
    (["jpg", "jpeg", "png", "gif", "webp"]).any (fun ext =>
      ext.data.isPrefixOf rest &&
        (match rest.drop ext.length with
         | [] => true
         | c :: _ => c = '?'))
  | _ => false

/-- Whether the regex matches anywhere in the string. -/
def has_image_ext_l : List Char → Bool
  | [] => false
  | c :: rest => image_ext_at (c :: rest) || has_image_ext_l rest

/-- `re.search` succeeds on `post_url` (which must be a string, else
`re.search` raises `TypeError`). -/
def has_image_ext (s : String) : Bool := has_image_ext_l s.data

/-- The preview-image loop (lines 131-134): for each of the first two
preview images, `src = img.get("source", {}).get("url", "").replace(
"&amp;", "&")`; append when `src` is truthy and not already collected.
A non-string `url` value makes `.replace` raise `AttributeError`. -/
def reddit_previews : List Json → List String → Except PyExn (List String)
  | [], acc => Except.ok acc
  | img :: rest, acc =>
    match py_get img "source" (Json.obj []) with
    | Except.error e => Except.error e
    | Except.ok source =>
      match py_get source "url" (Json.str "") with
      | Except.error e => Except.error e
      | Except.ok (Json.str u) =>
        reddit_previews rest
          (if py_replace_amp u ≠ "" ∧ py_replace_amp u ∉ acc then acc ++ [py_replace_amp u] else acc)
      | Except.ok _ => Except.error PyExn.attributeError

/-- Lines 120-123: `post_url = post.get("url", "")` and the
case-insensitive image-extension regex; `re.search` on a non-string value
raises `TypeError`. -/
def reddit_direct_image (post : Json) : Except PyExn (List String) :=
  match py_get post "url" (Json.str "") with
  | Except.error e => Except.error e
  | Except.ok (Json.str u) => Except.ok (if has_image_ext u then [u] else [])
  | Except.ok _ => Except.error PyExn.typeError

/-- Lines 125-128: the Reddit-hosted-video chain
`post.get("media", {}).get("reddit_video", {}).get("fallback_url")`,
taken only when `post.get("is_video")` is truthy. -/
def reddit_media_urls (post : Json) : Except PyExn (List String) :=
  match py_get post "is_video" Json.null with
  | Except.error e => Except.error e
  | Except.ok isVideoJ =>
    if py_truthy isVideoJ then
      match py_get post "media" (Json.obj []) with
      | Except.error e => Except.error e
      | Except.ok media =>
        match py_get media "reddit_video" (Json.obj []) with
        | Except.error e => Except.error e
        | Except.ok rv =>
          match py_get rv "fallback_url" Json.null with
          | Except.error e => Except.error e
          | Except.ok vidJ => Except.ok (if py_truthy vidJ then [py_str_of vidJ] else [])
    else Except.ok []

/-- Line 131: `post.get("preview", {}).get("images", [])[:2]`. -/
def reddit_preview_list (post : Json) : Except PyExn (List Json) :=
  match py_get post "preview" (Json.obj []) with
  | Except.error e => Except.error e
  | Except.ok previewJ =>
    match py_get previewJ "images" (Json.arr []) with
    | Except.error e => Except.error e
    | Except.ok imagesJ => py_slice2 imagesJ

/-- Lines 112-144: the field extraction performed after the parse `try`
(entirely unguarded in the source, so its exceptions propagate), in source
order. -/
def reddit_build (post : Json) : Except PyExn ScrapeResult :=
  match py_get post "title" (Json.str "") with
  | Except.error e => Except.error e
  | Except.ok titleJ =>
    match py_get post "selftext" (Json.str "") with
    | Except.error e => Except.error e
    | Except.ok bodyJ =>
      match reddit_direct_image post with
      | Except.error e => Except.error e
      | Except.ok image0 =>
        match reddit_media_urls post with
        | Except.error e => Except.error e
        | Except.ok video_urls =>
          match reddit_preview_list post with
          | Except.error e => Except.error e
          | Except.ok firstTwo =>
            match reddit_previews firstTwo image0 with
            | Except.error e => Except.error e
            | Except.ok image_urls =>
              match py_get post "author" (Json.str "") with
              | Except.error e => Except.error e
              | Except.ok authorJ =>
                match py_get post "created_utc" (Json.str "") with
                | Except.error e => Except.error e
                | Except.ok createdJ =>
                  Except.ok { platform := "reddit"
                              text := py_strip (py_str_of titleJ ++ "\n\n" ++ py_str_of bodyJ)
                              author := py_str_of authorJ
                              image_urls := image_urls
                              video_urls := video_urls
                              timestamp := py_str_of createdJ
                              error := none }

/-- `scrape_reddit` (lines 90-144).  The first `try` catches
`requests.RequestException`; the second catches `KeyError`, `IndexError`
and `json.JSONDecodeError` (an undecodable body raises the latter, caught
by the same clause as the navigation's `KeyError`) — any other exception
from the navigation, and every exception from the field extraction below
it, propagates. -/
def scrape_reddit (env : Env) (url : String) : Except PyExn ScrapeResult :=
  match env.reddit_get (clean_reddit_url url) with
  | HttpOutcome.exn e =>
    Except.ok (_error_result "reddit" ("Could not fetch Reddit post: " ++ e))
  | HttpOutcome.body none =>
    Except.ok (_error_result "reddit"
      "Could not parse Reddit response — the URL may not point to a specific post.")
  | HttpOutcome.body (some data) =>
    match reddit_nav data with
    | Except.error PyExn.keyError =>
      Except.ok (_error_result "reddit"
        "Could not parse Reddit response — the URL may not point to a specific post.")
    | Except.error PyExn.indexError =>
      Except.ok (_error_result "reddit"
        "Could not parse Reddit response — the URL may not point to a specific post.")
    | Except.error e => Except.error e
    | Except.ok post => reddit_build post

/-! ## Metadata/transcript retriever: `scrape_youtube` (lines 151-195) -/

/-- `scrape_youtube`: metadata failure is fatal (error result); transcript
failure degrades to an inline note.  Every failure site is inside a
`try`, so the model never propagates an exception. -/
def scrape_youtube (env : Env) (url : String) : Except PyExn ScrapeResult :=
  if !env.yt.installed then
    Except.ok (_error_result "youtube" "yt-dlp not installed. Run: pip install yt-dlp")
  else
    match env.yt.extract_info url with
    | Except.error e =>
      Except.ok (_error_result "youtube" ("Could not fetch YouTube video info: " ++ e))
    | Except.ok info =>
      let description := py_take 2000 (info.description.getD "")
      let text := "Title: " ++ info.title ++ "\n\nDescription:\n" ++ description
      let text :=
        match env.yt.transcript info.id with
        | some segs => text ++ "\n\nVideo transcript:\n" ++ py_take 4000 (py_join_space segs)
        | none => text ++ "\n\n[No captions or transcript available for this video]"
      Except.ok { platform := "youtube"
                  text := py_strip text
                  author := info.uploader
                  image_urls := if info.thumbnail ≠ "" then [info.thumbnail] else []
                  video_urls := [url]
                  timestamp := info.upload_date
                  error := none }

/-! ## Session-backed browser retriever (lines 202-390) -/

/-- The dict a platform extractor returns (`result` in
`scrape_playwright`); absent keys are `none` and read back through
`result.get(key, default)`. -/
structure ExtractDict where
  text : Option String := none
  author : Option String := none
  image_urls : Option (List String) := none
  video_urls : Option (List String) := none
  error : Option String := none

/-- `_is_login_page` (lines 300-303). -/
def _is_login_page (url : String) (_platform : String) : Bool :=
  (["login", "signin", "sign-in", "accounts/login", "/auth", "session/new"]).any
    (fun w => py_in w (py_lower url))

/-- A regex `\w` character. -/
def isWordChar (c : Char) : Bool := c.isAlpha || c.isDigit || c = '_'

/-- List core of `re.sub(r"&name=\w+$", "&name=large", src)`. -/
def rewriteNameLargeL : List Char → List Char
  | [] => []
  | '&' :: 'n' :: 'a' :: 'm' :: 'e' :: '=' :: rest =>
    if rest ≠ [] ∧ rest.all isWordChar then '&' :: "name=large".data
    else '&' :: 'n' :: 'a' :: 'm' :: 'e' :: '=' :: rewriteNameLargeL rest
  | c :: rest => c :: rewriteNameLargeL rest

/-- `re.sub(r"&name=\w+$", "&name=large", src)`: rewrite a trailing
`&name=<word>` to `&name=large`.  At most one position can match, since
`\w` excludes `&`. -/
def rewrite_name_large (src : String) : String := ⟨rewriteNameLargeL src.data⟩

/-- `_extract_twitter` (lines 306-354): the modal-dismissal clicks yield
no data; a missing tweet container returns an error dict; otherwise text,
first author line, `pbs.twimg.com`-filtered images rewritten to the large
variant (no deduplication), and the post URL when a video component
exists. -/
def _extract_twitter (pg : TwitterPage) (url : String) : ExtractDict :=
  if !pg.tweet_found then
    { error := some "Tweet content not found. The post may be deleted, private, or require login." }
  else
    let image_urls := pg.img_srcs.foldl (fun acc srcOpt =>
      let src := srcOpt.getD ""
      if py_in "pbs.twimg.com" src then acc ++ [rewrite_name_large src] else acc) []
    { text := some (pg.tweet_text.getD "")
      author := some (match pg.author with
        | some a => py_first_line a
        | none => "")
      image_urls := some image_urls
      video_urls := some (if pg.has_video then [url] else [])
      error := none }

/-- `_extract_instagram` (lines 357-371): Open-Graph description, image
and type. -/
def _extract_instagram (pg : OgPage) (url : String) : ExtractDict :=
  { text := some (match pg.og_desc with
      | some c => c.getD ""
      | none => "")
    author := some ""
    image_urls := some (match pg.og_image with
      | some c => [c.getD ""]
      | none => [])
    video_urls := some (match pg.og_type with
      | some c => if py_in "video" (c.getD "") then [url] else []
      | none => [])
    error := none }

/-- `_extract_facebook` (lines 374-390): Open-Graph title+description,
image and type. -/
def _extract_facebook (pg : OgPage) (url : String) : ExtractDict :=
  { text := some (py_strip ((match pg.og_title with
      | some c => c.getD ""
      | none => "") ++ "\n\n" ++ (match pg.og_desc with
      | some c => c.getD ""
      | none => "")))
    author := some ""
    image_urls := some (match pg.og_image with
      | some c => [c.getD ""]
      | none => [])
    video_urls := some (match pg.og_type with
      | some c => if py_in "video" (c.getD "") then [url] else []
      | none => [])
    error := none }

/-- The headless-server refusal of scraper.py lines 215-219, instructing
manual text entry. -/
def manual_paste_msg (platform : String) : String :=
  "Scraping " ++ py_title platform ++
    " requires a logged-in browser session, which only works in the desktop version of this tool. Please copy and paste the post text manually."

/-- `scrape_playwright` (lines 202-297).  The `IS_SERVER` and import
guards return error results; `launch_persistent_context` is *not* inside a
`try`, so a launch failure propagates (`Except.error`); the first `goto`
and the login wait are caught to error results; extraction exceptions are
caught to an error dict; the final dict is assembled through
`result.get(...)` defaults. -/
def scrape_playwright (env : Env) (url platform : String) : Except PyExn ScrapeResult :=
  if env.is_server then
    Except.ok (_error_result platform (manual_paste_msg platform))
  else if !env.playwright_installed then
    Except.ok (_error_result platform
      "Playwright not installed. Run: pip install playwright && playwright install chromium")
  else
    match env.browser.launch with
    | Except.error m => Except.error (PyExn.exception m)
    | Except.ok _ =>
      match env.browser.goto1 with
      | Except.error m => Except.ok (_error_result platform ("Page failed to load: " ++ m))
      | Except.ok _ =>
        if _is_login_page env.browser.url_after_settle platform ∧ !env.browser.login_flow_ok then
          Except.ok (_error_result platform "Login timed out (90 seconds). Please try again.")
        else
          let result : ExtractDict :=
            match env.browser.extract_exn with
            | some m => { error := some ("Content extraction failed: " ++ m) }
            | none =>
              if platform = "twitter" then _extract_twitter env.browser.twitter url
              else if platform = "instagram" then _extract_instagram env.browser.insta url
              else if platform = "facebook" then _extract_facebook env.browser.fb url
              else {}
          Except.ok { platform := platform
                      text := result.text.getD ""
                      author := result.author.getD ""
                      image_urls := result.image_urls.getD []
                      video_urls := result.video_urls.getD []
                      timestamp := ""
                      error := result.error }

/-! ## Dispatcher: `scrape` (lines 62-83) -/

/-- The dispatcher's message for unrecognized hosts (line 70). -/
def unrecognized_msg : String :=
  "Unrecognized URL. Supported: X/Twitter, Reddit, YouTube, Instagram, Facebook."

/-- `scrape` (lines 62-83): detect the platform (a `ValueError` from
`urlparse` propagates), short-circuit on `"unknown"`, otherwise dispatch
through the scraper table; the final `KeyError` arm mirrors the dict
lookup and is proved unreachable. -/
def scrape (env : Env) (url : String) : Except PyExn ScrapeResult :=
  match detect_platform url with
  | Except.error m => Except.error (PyExn.valueError m)
  | Except.ok platform =>
    if platform = "unknown" then Except.ok (_error_result "unknown" unrecognized_msg)
    else if platform = "reddit" then scrape_reddit env url
    else if platform = "youtube" then scrape_youtube env url
    else if platform = "twitter" ∨ platform = "instagram" ∨ platform = "facebook" then
      scrape_playwright env url platform
    else Except.error PyExn.keyError

/-! ## Claim extractor/classifier: `extract_and_classify`
(claims.py lines 74-130) -/

/-- The user message built at claims.py lines 87-92. -/
def user_message (text url : String) : String :=
  (if url ≠ "" then "Original post URL: " ++ url ++ "\n\n" else "") ++
    "Please analyze this social media post and extract all factual claims:\n\n---\n" ++
    text ++ "\n---"

/-- The explanatory error attached on JSON-decode failure (line 127). -/
def decode_failure_msg : String :=
  "Claude returned a response that could not be parsed as structured data. The raw response is shown in 'summary'."

/-- The fallback dict of lines 124-128: empty claims, the (possibly
fence-stripped) text as summary, and the explanatory error. -/
def fallback_result (raw : String) : Json :=
  Json.obj [("claims", Json.arr []), ("summary", Json.str raw), ("error", Json.str decode_failure_msg)]

/-- The fence handling of lines 114-117: a reply starting with three
backticks loses its first line (`split("\n", 1)[1]`, an uncaught
`IndexError` when no newline exists) and the part from the last triple
backtick on (`rsplit` keeps the whole string when none occurs), then is
stripped. -/
def fence_strip (raw : String) : Except PyExn String :=
  if py_startswith raw "```" then
    match split_at_first ['\n'] raw.data with
    | none => Except.error PyExn.indexError
    | some (_, rest) =>
      let kept := match split_at_last "```".data rest with
        | some (before, _) => before
        | none => rest
      Except.ok (py_strip ⟨kept⟩)
  else Except.ok raw

/-- `extract_and_classify` (lines 74-130): build the user message, obtain
the reply (`response.content[0].text.strip()` — the oracle supplies the
text of a nonempty content list), strip fences, parse JSON, and fall back
on decode failure.  Only `json.JSONDecodeError` is caught. -/
def extract_and_classify (llm : String → String) (text : String) (url : String := "") :
    Except PyExn Json :=
  match fence_strip (py_strip (llm (user_message text url))) with
  | Except.error e => Except.error e
  | Except.ok stripped =>
    match json_loads stripped with
    | some v => Except.ok v
    | none => Except.ok (fallback_result stripped)

/-! ## Request handler: `analyze_post` (main.py lines 36-86) -/

/-- The scraped dict embedded in a response (main.py returns it
unchanged). -/
def scrape_to_json (r : ScrapeResult) : Json :=
  Json.obj [("platform", Json.str r.platform),
            ("text", Json.str r.text),
            ("author", Json.str r.author),
            ("image_urls", Json.arr (r.image_urls.map Json.str)),
            ("video_urls", Json.arr (r.video_urls.map Json.str)),
            ("timestamp", Json.str r.timestamp),
            ("error", match r.error with
              | some m => Json.str m
              | none => Json.null)]

/-- The refusal when neither URL nor text is supplied (main.py line 74). -/
def no_input_response : Json :=
  Json.obj [("error", Json.str "Please provide either a URL or some post text."),
            ("claims", Json.arr []), ("summary", Json.str "")]

/-- The refusal when the text to analyze is empty or whitespace-only
(main.py line 77). -/
def no_content_response : Json :=
  Json.obj [("error", Json.str "No text content could be extracted from this post."),
            ("claims", Json.arr []), ("summary", Json.str "")]

/-- The early return when scraping failed (main.py lines 50-55). -/
def scrape_error_response (scraped : ScrapeResult) (msg : String) : Json :=
  Json.obj [("error", Json.str msg), ("scraped", scrape_to_json scraped),
            ("claims", Json.arr []), ("summary", Json.str "")]

/-- The media notes appended to scraped text (main.py lines 61-67). -/
def assemble_text (scraped : ScrapeResult) : String :=
  let t := scraped.text
  let t := if scraped.image_urls ≠ [] then
      t ++ "\n\n[Note: this post contains " ++ toString scraped.image_urls.length ++ " image(s)]"
    else t
  if scraped.video_urls ≠ [] then
      t ++ "\n\n[Note: this post contains " ++ toString scraped.video_urls.length ++ " video(s)]"
  else t

/-- `analyze_post` (main.py lines 36-86): URL takes precedence
(`if post.url:`), scrape errors return early, empty/whitespace text is
refused before the LLM call, and on the success path the scraped dict is
attached to the classifier's result (`result["scraped"] = scraped`, a
`TypeError` when the parsed reply is not an object). -/
def analyze_post (env : Env) (postText postUrl : String) : Except PyExn Json :=
  if postUrl ≠ "" then
    match scrape env postUrl with
    | Except.error e => Except.error e
    | Except.ok scraped =>
      match scraped.error with
      | some msg => Except.ok (scrape_error_response scraped msg)
      | none =>
        if py_strip (assemble_text scraped) = "" then Except.ok no_content_response
        else
          match extract_and_classify env.llm (assemble_text scraped) postUrl with
          | Except.error e => Except.error e
          | Except.ok result => py_setitem result "scraped" (scrape_to_json scraped)
  else if postText ≠ "" then
    if py_strip postText = "" then Except.ok no_content_response
    else extract_and_classify env.llm postText postUrl
  else Except.ok no_input_response

/-! ## Concrete environments used by witnesses and counterexamples -/

/-- An environment whose browser context fails to launch (e.g. Chromium is
missing or there is no display) — the failure mode scraper.py line 232
does not guard. -/
def launch_fail_env : Env := { browser := { launch := Except.error "no display" } }

/-- A server-mode (headless) deployment. -/
def server_env : Env := { is_server := true }

/-! # Theorems -/

/-! ## Helper lemmas about platform detection -/

/-- The host table produces one of the six platform identifiers. -/
theorem detect_from_host_range (host : String) :
    detect_from_host host = "twitter" ∨ detect_from_host host = "reddit" ∨
    detect_from_host host = "youtube" ∨ detect_from_host host = "instagram" ∨
    detect_from_host host = "facebook" ∨ detect_from_host host = "unknown" := by
  unfold detect_from_host
  split_ifs <;> simp

/-- `detect_platform` produces only the six platform identifiers. -/
theorem detect_platform_range (url : String) (p : String)
    (h : detect_platform url = Except.ok p) :
    p = "twitter" ∨ p = "reddit" ∨ p = "youtube" ∨ p = "instagram" ∨
    p = "facebook" ∨ p = "unknown" := by
  unfold detect_platform at h
  cases hn : urlparse_netloc (py_lower url) with
  | error e => rw [hn] at h; exact absurd h (by simp [Except.map])
  | ok n =>
    rw [hn] at h
    simp only [Except.map] at h
    cases h
    exact detect_from_host_range _

/-! ## C5 — `detect_platform` totality -/

/-- C6: for every URL whose host is not recognized (`detect_platform`
yields `"unknown"`), `scrape` returns the fixed error result naming the
supported platform set, with every content field empty.  The result is
the same constant for *every* environment — in particular it does not
depend on any network, yt-dlp, or browser oracle, which is the model's
rendering of "no network call is attempted". -/
theorem c6_unknown_host_refused (env : Env) (url : String)
    (h : detect_platform url = Except.ok "unknown") :
    scrape env url = Except.ok (_error_result "unknown" unrecognized_msg) ∧
    (_error_result "unknown" unrecognized_msg).error = some unrecognized_msg ∧
    (_error_result "unknown" unrecognized_msg).text = "" ∧
    (_error_result "unknown" unrecognized_msg).author = "" ∧
    (_error_result "unknown" unrecognized_msg).image_urls = [] ∧
    (_error_result "unknown" unrecognized_msg).video_urls = [] ∧
    (_error_result "unknown" unrecognized_msg).timestamp = "" := by
  refine ⟨?_, rfl, rfl, rfl, rfl, rfl, rfl⟩
  unfold scrape
  rw [h]
  simp

/-- C6 witness: a concrete unknown-host URL, in the default environment. -/
theorem c6_witness :
    scrape {} "https://example.com/a" = Except.ok (_error_result "unknown" unrecognized_msg) :=
  (c6_unknown_host_refused {} "https://example.com/a" rfl).1

/-! ## C8 — headless/server mode short-circuits the browser retriever -/

/-- C8: when `IS_SERVER` holds, the browser-backed retriever
short-circuits for every URL on a browser-backed platform to the
manual-paste error result.  The result is the same for every browser
oracle (launch is never consulted), which is the model's rendering of "no
browser launch is attempted"; the message literally instructs copying and
pasting the post text. -/
theorem c8_server_mode_short_circuit (env : Env) (url p : String)
    (hs : env.is_server = true)
    (hd : detect_platform url = Except.ok p)
    (hp : p = "twitter" ∨ p = "instagram" ∨ p = "facebook") :
    scrape env url = Except.ok (_error_result p (manual_paste_msg p)) ∧
    py_in "copy and paste the post text manually" (manual_paste_msg p) = true := by
  rcases hp with rfl | rfl | rfl <;>
    refine ⟨?_, by decide⟩ <;>
    · unfold scrape
      rw [hd]
      simp only [String.reduceEq, if_false, if_true, reduceIte]
      unfold scrape_playwright
      rw [hs]
      simp

/-- C8 witness: an Instagram URL in a server-mode environment. -/
theorem c8_witness :
    scrape server_env "https://www.instagram.com/p/1/" =
      Except.ok (_error_result "instagram" (manual_paste_msg "instagram")) :=
  (c8_server_mode_short_circuit server_env "https://www.instagram.com/p/1/" "instagram"
    rfl rfl (Or.inr (Or.inl rfl))).1

/-! ## C10 — substring-based platform detection -/

/-- C10 counterexample: detection is an *ordered* chain, so the claim's
universal statement fails for Instagram: the host
`"reddit.com.instagram.com"` contains `"instagram.com"` as a substring,
yet `detect_platform` returns `"reddit"` (the Reddit substring check runs
first). -/
theorem c10_counterexample :
    ¬ (∀ url n, urlparse_netloc (py_lower url) = Except.ok n →
        py_in "instagram.com" (strip_www n) = true →
        detect_platform url = Except.ok "instagram") := by
  intro h
  have h2 := h "https://reddit.com.instagram.com/p/1" "reddit.com.instagram.com" rfl (by decide)
  have h3 : detect_platform "https://reddit.com.instagram.com/p/1" = Except.ok "reddit" := rfl
  rw [h3] at h2
  exact absurd h2 (by simp)

/-- C10 (amended): detection for Reddit, Instagram and Facebook is by
substring containment on the normalized host, applied in the fixed order
twitter-exact, reddit, youtube-exact, instagram, facebook: a host
containing `"reddit.com"` always maps to `"reddit"`; one containing
`"instagram.com"` maps to `"instagram"` provided it does not also contain
`"reddit.com"`; one containing `"facebook.com"` maps to `"facebook"`
provided it contains neither earlier substring; and `scrape` routes a
`"reddit"` detection to the Reddit retriever. -/
theorem c10_amended :
    (∀ url n, urlparse_netloc (py_lower url) = Except.ok n →
      py_in "reddit.com" (strip_www n) = true →
      detect_platform url = Except.ok "reddit")
    ∧ (∀ url n, urlparse_netloc (py_lower url) = Except.ok n →
        py_in "instagram.com" (strip_www n) = true →
        py_in "reddit.com" (strip_www n) = false →
        detect_platform url = Except.ok "instagram")
    ∧ (∀ url n, urlparse_netloc (py_lower url) = Except.ok n →
        py_in "facebook.com" (strip_www n) = true →
        py_in "reddit.com" (strip_www n) = false →
        py_in "instagram.com" (strip_www n) = false →
        detect_platform url = Except.ok "facebook")
    ∧ (∀ (env : Env) url, detect_platform url = Except.ok "reddit" →
        scrape env url = scrape_reddit env url) := by
  refine ⟨?_, ?_, ?_, ?_⟩
  · intro url n hn hin
    unfold detect_platform
    rw [hn]
    simp only [Except.map, Except.ok.injEq]
    have h1 : ¬(strip_www n = "twitter.com" ∨ strip_www n = "x.com" ∨
        strip_www n = "mobile.twitter.com") := by
      rintro (h | h | h) <;> rw [h] at hin <;> exact absurd hin (by decide)
    rw [detect_from_host, if_neg h1, if_pos hin]
  · intro url n hn hin hred
    unfold detect_platform
    rw [hn]
    simp only [Except.map, Except.ok.injEq]
    have h1 : ¬(strip_www n = "twitter.com" ∨ strip_www n = "x.com" ∨
        strip_www n = "mobile.twitter.com") := by
      rintro (h | h | h) <;> rw [h] at hin <;> exact absurd hin (by decide)
    have h3 : ¬(strip_www n = "youtube.com" ∨ strip_www n = "youtu.be" ∨
        strip_www n = "m.youtube.com") := by
      rintro (h | h | h) <;> rw [h] at hin <;> exact absurd hin (by decide)
    rw [detect_from_host, if_neg h1, if_neg (by simp [hred]), if_neg h3, if_pos hin]
  · intro url n hn hfb hred hins
    unfold detect_platform
    rw [hn]
    simp only [Except.map, Except.ok.injEq]
    have h1 : ¬(strip_www n = "twitter.com" ∨ strip_www n = "x.com" ∨
        strip_www n = "mobile.twitter.com") := by
      rintro (h | h | h) <;> rw [h] at hfb <;> exact absurd hfb (by decide)
    have h3 : ¬(strip_www n = "youtube.com" ∨ strip_www n = "youtu.be" ∨
        strip_www n = "m.youtube.com") := by
      rintro (h | h | h) <;> rw [h] at hfb <;> exact absurd hfb (by decide)
    rw [detect_from_host, if_neg h1, if_neg (by simp [hred]), if_neg h3,
      if_neg (by simp [hins]), if_pos (Or.inl hfb)]
  · intro env url h
    unfold scrape
    rw [h]
    simp

/-- C10 witness: the spec's own example host `reddit.com.attacker.example`
is detected as Reddit and routed to the Reddit retriever. -/
theorem c10_witness :
    detect_platform "https://reddit.com.attacker.example/x" = Except.ok "reddit" ∧
    scrape {} "https://reddit.com.attacker.example/x" =
      scrape_reddit {} "https://reddit.com.attacker.example/x" :=
  ⟨c10_amended.1 "https://reddit.com.attacker.example/x" "reddit.com.attacker.example"
      rfl (by decide),
   c10_amended.2.2.2 {} "https://reddit.com.attacker.example/x"
     (c10_amended.1 "https://reddit.com.attacker.example/x" "reddit.com.attacker.example"
       rfl (by decide))⟩

/-! ## Helper lemmas about the fence handling -/

/-- `.get` on a JSON-derived value fails only with `AttributeError`. -/
theorem py_get_error_attr (j : Json) (k : String) (d : Json) (e : PyExn)
    (h : py_get j k d = Except.error e) : e = PyExn.attributeError := by
  cases j <;> simp only [py_get] at h
  case obj kvs => exact Except.noConfusion h
  all_goals exact ((Except.error.injEq _ _).mp h).symm

/-- Integer subscripting fails only with `KeyError`, `IndexError` or
`TypeError`. -/
theorem py_sub_int_error (j : Json) (i : Nat) (e : PyExn)
    (h : py_sub_int j i = Except.error e) :
    e = PyExn.keyError ∨ e = PyExn.indexError ∨ e = PyExn.typeError := by
  cases j with
  | arr xs =>
    simp only [py_sub_int] at h
    cases hx : xs.get? i
    · rw [hx] at h
      exact Or.inr (Or.inl ((Except.error.injEq _ _).mp h).symm)
    · rw [hx] at h; exact Except.noConfusion h
  | str s =>
    simp only [py_sub_int] at h
    cases hx : s.data.get? i
    · rw [hx] at h
      exact Or.inr (Or.inl ((Except.error.injEq _ _).mp h).symm)
    · rw [hx] at h; exact Except.noConfusion h
  | obj kvs => exact Or.inl ((Except.error.injEq _ _).mp h).symm
  | null => exact Or.inr (Or.inr ((Except.error.injEq _ _).mp h).symm)
  | bool b => exact Or.inr (Or.inr ((Except.error.injEq _ _).mp h).symm)
  | num n => exact Or.inr (Or.inr ((Except.error.injEq _ _).mp h).symm)

/-- String-key subscripting fails only with `KeyError` or `TypeError`. -/
theorem py_sub_str_error (j : Json) (k : String) (e : PyExn)
    (h : py_sub_str j k = Except.error e) :
    e = PyExn.keyError ∨ e = PyExn.typeError := by
  cases j with
  | obj kvs =>
    simp only [py_sub_str] at h
    cases hx : objFind kvs k
    · rw [hx] at h
      exact Or.inl ((Except.error.injEq _ _).mp h).symm
    · rw [hx] at h; exact Except.noConfusion h
  | null => exact Or.inr ((Except.error.injEq _ _).mp h).symm
  | bool b => exact Or.inr ((Except.error.injEq _ _).mp h).symm
  | num n => exact Or.inr ((Except.error.injEq _ _).mp h).symm
  | str s => exact Or.inr ((Except.error.injEq _ _).mp h).symm
  | arr xs => exact Or.inr ((Except.error.injEq _ _).mp h).symm

/-- Slicing fails only with `TypeError`. -/
theorem py_slice2_error (j : Json) (e : PyExn)
    (h : py_slice2 j = Except.error e) : e = PyExn.typeError := by
  cases j <;> simp only [py_slice2] at h
  case arr xs => exact Except.noConfusion h
  case str s => exact Except.noConfusion h
  all_goals exact ((Except.error.injEq _ _).mp h).symm

/-- The listing navigation fails only with `KeyError`, `IndexError` or
`TypeError`. -/
theorem reddit_nav_error (data : Json) (e : PyExn)
    (h : reddit_nav data = Except.error e) :
    e = PyExn.keyError ∨ e = PyExn.indexError ∨ e = PyExn.typeError := by
  unfold reddit_nav at h
  repeat' split at h
  all_goals first
    | exact (py_sub_str_error _ _ _ h).imp id Or.inr
    | (injection h with h2; subst h2
       first
         | exact py_sub_int_error _ _ _ (by assumption)
         | exact (py_sub_str_error _ _ _ (by assumption)).imp id Or.inr)

/-- The direct-image step fails only with `AttributeError` (`.get` on a
non-dict) or `TypeError` (`re.search` on a non-string). -/
theorem reddit_direct_image_error (post : Json) (e : PyExn)
    (h : reddit_direct_image post = Except.error e) :
    e = PyExn.attributeError ∨ e = PyExn.typeError := by
  unfold reddit_direct_image at h
  split at h
  · injection h with h2; subst h2
    exact Or.inl (py_get_error_attr _ _ _ _ (by assumption))
  · exact Except.noConfusion h
  · exact Or.inr ((Except.error.injEq _ _).mp h).symm

/-- A successful direct-image step yields a duplicate-free list. -/
theorem reddit_direct_image_nodup (post : Json) (l : List String)
    (h : reddit_direct_image post = Except.ok l) : l.Nodup := by
  unfold reddit_direct_image at h
  split at h
  · exact Except.noConfusion h
  · have := (Except.ok.injEq _ _).mp h
    subst this
    split <;> simp
  · exact Except.noConfusion h

/-- The video chain fails only with `AttributeError`. -/
theorem reddit_media_urls_error (post : Json) (e : PyExn)
    (h : reddit_media_urls post = Except.error e) : e = PyExn.attributeError := by
  unfold reddit_media_urls at h
  repeat' split at h
  all_goals first
    | exact Except.noConfusion h
    | (injection h with h2; subst h2
       exact py_get_error_attr _ _ _ _ (by assumption))

/-- The preview-list step fails only with `AttributeError` or `TypeError`. -/
theorem reddit_preview_list_error (post : Json) (e : PyExn)
    (h : reddit_preview_list post = Except.error e) :
    e = PyExn.attributeError ∨ e = PyExn.typeError := by
  unfold reddit_preview_list at h
  repeat' split at h
  all_goals first
    | exact Or.inr (py_slice2_error _ _ h)
    | (injection h with h2; subst h2
       exact Or.inl (py_get_error_attr _ _ _ _ (by assumption)))

/-- Appending under the `src not in image_urls` guard preserves
duplicate-freedom. -/
theorem nodup_guard (acc : List String) (src : String) (h : acc.Nodup) :
    (if src ≠ "" ∧ src ∉ acc then acc ++ [src] else acc).Nodup := by
  split
  · rename_i hc
    refine h.append (List.nodup_singleton _) ?_
    intro a ha hb
    exact hc.2 (List.mem_singleton.mp hb ▸ ha)
  · exact h

/-- The preview loop either succeeds, preserving duplicate freedom of the
accumulator, or raises `AttributeError`. -/
theorem reddit_previews_cases (imgs : List Json) (acc : List String) :
    (∃ l, reddit_previews imgs acc = Except.ok l ∧ (acc.Nodup → l.Nodup)) ∨
    reddit_previews imgs acc = Except.error PyExn.attributeError := by
  induction imgs generalizing acc with
  | nil => exact Or.inl ⟨acc, rfl, id⟩
  | cons img rest ih =>
    cases img with
    | obj kvs =>
      cases hsv : (objFind kvs "source").getD (Json.obj []) with
      | obj skvs =>
        cases huv : (objFind skvs "url").getD (Json.str "") with
        | str u =>
          rcases ih (if py_replace_amp u ≠ "" ∧ py_replace_amp u ∉ acc then
              acc ++ [py_replace_amp u] else acc) with ⟨l, hl, hnd⟩ | herr
          · refine Or.inl ⟨l, ?_, fun ha => hnd (nodup_guard _ _ ha)⟩
            simp only [reddit_previews, py_get, hsv, huv, hl]
          · exact Or.inr (by simp only [reddit_previews, py_get, hsv, huv, herr])
        | null => exact Or.inr (by simp only [reddit_previews, py_get, hsv, huv])
        | bool b => exact Or.inr (by simp only [reddit_previews, py_get, hsv, huv])
        | num n => exact Or.inr (by simp only [reddit_previews, py_get, hsv, huv])
        | arr xs => exact Or.inr (by simp only [reddit_previews, py_get, hsv, huv])
        | obj okvs => exact Or.inr (by simp only [reddit_previews, py_get, hsv, huv])
      | null => exact Or.inr (by simp only [reddit_previews, py_get, hsv])
      | bool b => exact Or.inr (by simp only [reddit_previews, py_get, hsv])
      | num n => exact Or.inr (by simp only [reddit_previews, py_get, hsv])
      | str s => exact Or.inr (by simp only [reddit_previews, py_get, hsv])
      | arr xs => exact Or.inr (by simp only [reddit_previews, py_get, hsv])
    | null => exact Or.inr (by simp only [reddit_previews, py_get])
    | bool b => exact Or.inr (by simp only [reddit_previews, py_get])
    | num n => exact Or.inr (by simp only [reddit_previews, py_get])
    | str s => exact Or.inr (by simp only [reddit_previews, py_get])
    | arr xs => exact Or.inr (by simp only [reddit_previews, py_get])

/-- The field-extraction phase either returns a success record
(`error = None`, duplicate-free images) or raises `TypeError` or
`AttributeError`. -/
theorem reddit_build_cases (post : Json) :
    (∃ r, reddit_build post = Except.ok r ∧ r.error = none ∧ r.image_urls.Nodup) ∨
    reddit_build post = Except.error PyExn.typeError ∨
    reddit_build post = Except.error PyExn.attributeError := by
  cases post with
  | obj kvs =>
    cases h3 : reddit_direct_image (Json.obj kvs) with
    | error e =>
      rcases reddit_direct_image_error _ _ h3 with rfl | rfl
      · exact Or.inr (Or.inr (by simp only [reddit_build, py_get, h3]))
      · exact Or.inr (Or.inl (by simp only [reddit_build, py_get, h3]))
    | ok image0 =>
      cases h4 : reddit_media_urls (Json.obj kvs) with
      | error e =>
        obtain rfl := reddit_media_urls_error _ _ h4
        exact Or.inr (Or.inr (by simp only [reddit_build, py_get, h3, h4]))
      | ok video_urls =>
        cases h5 : reddit_preview_list (Json.obj kvs) with
        | error e =>
          rcases reddit_preview_list_error _ _ h5 with rfl | rfl
          · exact Or.inr (Or.inr (by simp only [reddit_build, py_get, h3, h4, h5]))
          · exact Or.inr (Or.inl (by simp only [reddit_build, py_get, h3, h4, h5]))
        | ok firstTwo =>
          rcases reddit_previews_cases firstTwo image0 with ⟨l, hl, hnd⟩ | herr
          · refine Or.inl ⟨_, by simp only [reddit_build, py_get, h3, h4, h5, hl]; rfl, rfl, ?_⟩
            exact hnd (reddit_direct_image_nodup _ _ h3)
          · exact Or.inr (Or.inr (by simp only [reddit_build, py_get, h3, h4, h5, herr]))
  | null => exact Or.inr (Or.inr (by simp only [reddit_build, py_get]))
  | bool b => exact Or.inr (Or.inr (by simp only [reddit_build, py_get]))
  | num n => exact Or.inr (Or.inr (by simp only [reddit_build, py_get]))
  | str s => exact Or.inr (Or.inr (by simp only [reddit_build, py_get]))
  | arr xs => exact Or.inr (Or.inr (by simp only [reddit_build, py_get]))

/-- Every outcome of the fixed-API retriever: an error result, a success
record with `error = None` and duplicate-free images, or a propagating
`TypeError`/`AttributeError`. -/
theorem scrape_reddit_cases (env : Env) (url : String) :
    (∃ m, scrape_reddit env url = Except.ok (_error_result "reddit" m)) ∨
    (∃ r, scrape_reddit env url = Except.ok r ∧ r.error = none ∧ r.image_urls.Nodup) ∨
    scrape_reddit env url = Except.error PyExn.typeError ∨
    scrape_reddit env url = Except.error PyExn.attributeError := by
  cases hg : env.reddit_get (clean_reddit_url url) with
  | exn e => exact Or.inl ⟨_, by simp only [scrape_reddit, hg]; rfl⟩
  | body b =>
    cases b with
    | none => exact Or.inl ⟨_, by simp only [scrape_reddit, hg]; rfl⟩
    | some data =>
      cases hn : reddit_nav data with
      | error e =>
        rcases reddit_nav_error data e hn with rfl | rfl | rfl
        · exact Or.inl ⟨_, by simp only [scrape_reddit, hg, hn]; rfl⟩
        · exact Or.inl ⟨_, by simp only [scrape_reddit, hg, hn]; rfl⟩
        · exact Or.inr (Or.inr (Or.inl (by simp only [scrape_reddit, hg, hn])))
      | ok post =>
        rcases reddit_build_cases post with ⟨r, hr, hre, hnd⟩ | hb | hb
        · exact Or.inr (Or.inl ⟨r, by simp only [scrape_reddit, hg, hn, hr], hre, hnd⟩)
        · exact Or.inr (Or.inr (Or.inl (by simp only [scrape_reddit, hg, hn, hb])))
        · exact Or.inr (Or.inr (Or.inr (by simp only [scrape_reddit, hg, hn, hb])))

/-- The metadata/transcript retriever never propagates an exception:
every outcome is an error result or a success record. -/
theorem scrape_youtube_cases (env : Env) (url : String) :
    (∃ m, scrape_youtube env url = Except.ok (_error_result "youtube" m)) ∨
    (∃ r, scrape_youtube env url = Except.ok r ∧ r.error = none) := by
  unfold scrape_youtube
  split
  · exact Or.inl ⟨_, rfl⟩
  · cases hx : env.yt.extract_info url with
    | error e => exact Or.inl ⟨_, rfl⟩
    | ok info => exact Or.inr ⟨_, rfl, rfl⟩

/-- The browser retriever's outcomes: an error result, a success record
with `error = None`, or a propagating launch exception. -/
theorem scrape_playwright_cases (env : Env) (url p : String) :
    (∃ m, scrape_playwright env url p = Except.ok (_error_result p m)) ∨
    (∃ r, scrape_playwright env url p = Except.ok r ∧ r.error = none) ∨
    (∃ m, scrape_playwright env url p = Except.error (PyExn.exception m)) := by
  unfold scrape_playwright
  split
  · exact Or.inl ⟨_, rfl⟩
  split
  · exact Or.inl ⟨_, rfl⟩
  cases hl : env.browser.launch with
  | error m => exact Or.inr (Or.inr ⟨m, rfl⟩)
  | ok u =>
    dsimp only
    cases hg : env.browser.goto1 with
    | error m => exact Or.inl ⟨_, rfl⟩
    | ok u2 =>
      dsimp only
      split
      · exact Or.inl ⟨_, rfl⟩
      · cases he : env.browser.extract_exn with
        | some m => exact Or.inl ⟨_, rfl⟩
        | none =>
          dsimp only
          by_cases hp : p = "twitter"
          · subst hp
            cases htf : env.browser.twitter.tweet_found with
            | false =>
              exact Or.inl
                ⟨"Tweet content not found. The post may be deleted, private, or require login.",
                 by simp [_extract_twitter, _error_result, htf]⟩
            | true =>
              refine Or.inr (Or.inl ⟨_, rfl, ?_⟩)
              simp [_extract_twitter, htf]
          · by_cases hp2 : p = "instagram"
            · subst hp2
              refine Or.inr (Or.inl ⟨_, rfl, ?_⟩)
              simp [_extract_instagram]
            · by_cases hp3 : p = "facebook"
              · subst hp3
                refine Or.inr (Or.inl ⟨_, rfl, ?_⟩)
                simp [_extract_facebook]
              · have hif : (if p = "twitter" then _extract_twitter env.browser.twitter url
                    else if p = "instagram" then _extract_instagram env.browser.insta url
                    else if p = "facebook" then _extract_facebook env.browser.fb url
                    else ({} : ExtractDict)) = ({} : ExtractDict) := by
                  rw [if_neg hp, if_neg hp2, if_neg hp3]
                rw [hif]
                exact Or.inr (Or.inl ⟨_, rfl, rfl⟩)

/-- The master classification of `scrape`'s outcomes: an error result
from `_error_result`, a success record with `error = None`, or a
propagating exception of one of the four uncaught classes. -/
theorem scrape_cases (env : Env) (url : String) :
    (∃ p m, scrape env url = Except.ok (_error_result p m)) ∨
    (∃ r, scrape env url = Except.ok r ∧ r.error = none) ∨
    (∃ e, scrape env url = Except.error e ∧
      (e = PyExn.typeError ∨ e = PyExn.attributeError ∨
        (∃ m, e = PyExn.valueError m) ∨ (∃ m, e = PyExn.exception m))) := by
  cases hd : detect_platform url with
  | error m =>
    exact Or.inr (Or.inr ⟨_, by simp only [scrape, hd], Or.inr (Or.inr (Or.inl ⟨m, rfl⟩))⟩)
  | ok platform =>
    by_cases h1 : platform = "unknown"
    · subst h1
      exact Or.inl ⟨_, _, by simp [scrape, hd]; rfl⟩
    · by_cases h2 : platform = "reddit"
      · subst h2
        have hs : scrape env url = scrape_reddit env url := by simp [scrape, hd]
        rcases scrape_reddit_cases env url with ⟨m, hr⟩ | ⟨r, hr, hre, _⟩ | hr | hr
        · exact Or.inl ⟨_, _, hs.trans hr⟩
        · exact Or.inr (Or.inl ⟨r, hs.trans hr, hre⟩)
        · exact Or.inr (Or.inr ⟨_, hs.trans hr, Or.inl rfl⟩)
        · exact Or.inr (Or.inr ⟨_, hs.trans hr, Or.inr (Or.inl rfl)⟩)
      · by_cases h3 : platform = "youtube"
        · subst h3
          have hs : scrape env url = scrape_youtube env url := by simp [scrape, hd]
          rcases scrape_youtube_cases env url with ⟨m, hr⟩ | ⟨r, hr, hre⟩
          · exact Or.inl ⟨_, _, hs.trans hr⟩
          · exact Or.inr (Or.inl ⟨r, hs.trans hr, hre⟩)
        · by_cases h4 : platform = "twitter" ∨ platform = "instagram" ∨ platform = "facebook"
          · have hs : scrape env url = scrape_playwright env url platform := by
              simp only [scrape, hd]
              rw [if_neg h1, if_neg h2, if_neg h3, if_pos h4]
            rcases scrape_playwright_cases env url platform with ⟨m, hr⟩ | ⟨r, hr, hre⟩ | ⟨m, hr⟩
            · exact Or.inl ⟨_, _, hs.trans hr⟩
            · exact Or.inr (Or.inl ⟨r, hs.trans hr, hre⟩)
            · exact Or.inr (Or.inr ⟨_, hs.trans hr, Or.inr (Or.inr (Or.inr ⟨m, rfl⟩))⟩)
          · exfalso
            rcases detect_platform_range url platform hd with rfl | rfl | rfl | rfl | rfl | rfl
            · exact h4 (Or.inl rfl)
            · exact h2 rfl
            · exact h3 rfl
            · exact h4 (Or.inr (Or.inl rfl))
            · exact h4 (Or.inr (Or.inr rfl))
            · exact h1 rfl

/-! ## C3 — classifier reply-parsing robustness -/

/-- C1: for every environment and URL (hence for every retriever the
dispatcher can reach), an error-bearing `ScrapeResult` returned by
`scrape` carries no content: its `text` is empty and its `image_urls` and
`video_urls` are empty. -/
theorem c1_error_excludes_content (env : Env) (url : String) (r : ScrapeResult) (m : String)
    (h : scrape env url = Except.ok r) (he : r.error = some m) :
    r.text = "" ∧ r.image_urls = [] ∧ r.video_urls = [] := by
  rcases scrape_cases env url with ⟨p, m', hr⟩ | ⟨r', hr, hre⟩ | ⟨e, hr, _⟩
  · rw [h] at hr
    obtain rfl := (Except.ok.injEq _ _).mp hr
    exact ⟨rfl, rfl, rfl⟩
  · rw [h] at hr
    obtain rfl := (Except.ok.injEq _ _).mp hr
    rw [he] at hre
    exact absurd hre (by simp)
  · rw [h] at hr
    exact Except.noConfusion hr

/-- C1 witness: the unknown-host error result of the default environment
has empty content fields. -/
theorem c1_witness :
    (_error_result "unknown" unrecognized_msg).text = "" ∧
    (_error_result "unknown" unrecognized_msg).image_urls = [] ∧
    (_error_result "unknown" unrecognized_msg).video_urls = [] :=
  c1_error_excludes_content {} "https://example.com/a"
    (_error_result "unknown" unrecognized_msg) unrecognized_msg rfl rfl

/-! ## C2 — whether `scrape` can raise -/

/-- C2 counterexample: `scrape` *can* raise to its caller.
`launch_persistent_context` (scraper.py line 232) is not inside any
`try`: in an environment whose browser launch fails, the exception
propagates out of `scrape` (modelled as `Except.error`), so the claim
that every retriever failure, including browser launch, is caught is
false. -/
theorem c2_counterexample :
    ¬ (∀ (env : Env) (url : String), ∃ r, scrape env url = Except.ok r) := by
  intro h
  obtain ⟨r, hr⟩ := h launch_fail_env "https://x.com/a/status/1"
  have he : scrape launch_fail_env "https://x.com/a/status/1" =
      Except.error (PyExn.exception "no display") := rfl
  rw [he] at hr
  exact Except.noConfusion hr

/-- C2 (amended): `scrape` can propagate an exception only from three
unguarded places — the `ValueError` that `urlparse` raises during
platform detection, an exception launching the persistent browser
context, and a `TypeError`/`AttributeError` from navigating an
unexpectedly-shaped Reddit JSON body.  Every other retriever failure
(network, timeout, HTTP status, JSON decode, missing keys or indices,
page navigation, login wait, content extraction) is caught and converted
into an error-bearing `ScrapeResult`. -/
theorem c2_amended (env : Env) (url : String) (e : PyExn)
    (h : scrape env url = Except.error e) :
    e = PyExn.typeError ∨ e = PyExn.attributeError ∨
      (∃ m, e = PyExn.valueError m) ∨ (∃ m, e = PyExn.exception m) := by
  rcases scrape_cases env url with ⟨p, m, hr⟩ | ⟨r, hr, _⟩ | ⟨e', hr, hp⟩
  · rw [h] at hr
    exact Except.noConfusion hr
  · rw [h] at hr
    exact Except.noConfusion hr
  · rw [h] at hr
    obtain rfl := (Except.error.injEq _ _).mp hr
    exact hp

/-- C2 witness: the amended theorem applied to the launch-failure
environment. -/
theorem c2_witness :
    PyExn.exception "no display" = PyExn.typeError ∨
    PyExn.exception "no display" = PyExn.attributeError ∨
    (∃ m, PyExn.exception "no display" = PyExn.valueError m) ∨
    (∃ m, PyExn.exception "no display" = PyExn.exception m) :=
  c2_amended launch_fail_env "https://x.com/a/status/1" (PyExn.exception "no display") rfl

/-! ## C4 — image deduplication -/

/-- C9: the analyze endpoint refuses unsupported input before any
external call: with both `url` and `text` empty it returns the
no-input error response (empty claims, empty summary) for *every*
environment (hence without scraping or calling the LLM); with a
whitespace-only text to analyze — whether pasted directly or assembled
from a successful scrape — it returns the no-content error response,
again for every environment; and when `url` is non-empty the response
never depends on `text` (`url` takes precedence). -/
theorem c9_input_refusal (env : Env) (postText postUrl : String) :
    (postUrl = "" → postText = "" → analyze_post env postText postUrl = Except.ok no_input_response)
    ∧ (postUrl = "" → postText ≠ "" → py_strip postText = "" →
        analyze_post env postText postUrl = Except.ok no_content_response)
    ∧ (postUrl ≠ "" → ∀ otherText, analyze_post env postText postUrl = analyze_post env otherText postUrl)
    ∧ (∀ r, postUrl ≠ "" → scrape env postUrl = Except.ok r → r.error = none →
        py_strip (assemble_text r) = "" →
        analyze_post env postText postUrl = Except.ok no_content_response) := by
  refine ⟨?_, ?_, ?_, ?_⟩
  · rintro rfl rfl
    rfl
  · rintro rfl ht hs
    unfold analyze_post
    rw [if_neg (by simp), if_pos ht, if_pos hs]
  · intro hu otherText
    unfold analyze_post
    rw [if_pos hu, if_pos hu]
  · intro r hu hr hre hs
    unfold analyze_post
    rw [if_pos hu, hr]
    dsimp only
    rw [hre]
    dsimp only
    rw [if_pos hs]

/-- C9 witness: the spec's end-to-end examples — an empty request and a
whitespace-only text request. -/
theorem c9_witness :
    analyze_post {} "" "" = Except.ok no_input_response ∧
    analyze_post {} "   " "" = Except.ok no_content_response :=
  ⟨(c9_input_refusal {} "" "").1 rfl rfl,
   (c9_input_refusal {} "   " "").2.1 rfl (by decide) (by decide)⟩

end FactCheck
